import Mathlib

/-!
gom2k — verification of the message-forwarding core

Shallow embedding of the gom2k MQTT↔Kafka bridge's message-forwarding core:
the envelope codec (`internal/kafka/producer.go` / `internal/kafka/consumer.go`),
the topic mapper (`internal/bridge/mqtt_to_kafka.go`), the Kafka→MQTT pipeline's
loop guard (`internal/bridge/kafka_to_mqtt.go`), the bidirectional supervisor
(`internal/bridge/bidirectional.go`), the producer's write/auto-create path
(`internal/kafka/producer.go`), and the dead-letter queue
(the bridge package's dead-letter file).

Modelling conventions:
* Go strings that the code treats as text are Lean `String`s; the topic mapper,
  which works byte-by-byte and truncates at a byte boundary, is embedded over
  `List Nat` (one `Nat` per byte).
* The Kafka record value is carried as the parsed JSON document (`Json` below):
  `json.Marshal`/`json.Unmarshal` are inverse at the document level, and no
  claim inspects the raw bytes.  JSON numbers are represented exactly as
  rationals; the `float64` values in the claims are small integers, which
  `float64` represents exactly.
* An MQTT payload is modelled as the `String` it holds when it is valid UTF-8
  (the only domain the codec round-trip claim quantifies over).
* `time.Time` is modelled as whole Unix seconds plus a nanosecond remainder;
  `Time.Unix()` returns the seconds field.
* Network and clock effects are passed in explicitly (oracles for send
  outcomes, an explicit `now`), and side effects (publishes, produced DLQ
  records) are collected in trace fields of the returned states.
-/

/-- Model of `time.Time`, reduced to what the code observes: whole Unix seconds
(`Unix()`) and the nanosecond remainder within the second. -/
structure Timestamp where
  sec : Int
  nanos : Nat
  deriving DecidableEq

/-- Model of `Unix()` on a `time.Time`: the timestamp truncated to whole seconds. -/
def Timestamp.unix (t : Timestamp) : Int := t.sec

/-- Is `pat` a contiguous infix of the character list?  (Model of Go
`strings.Contains` after `String.toList`.) -/
def charSeqContains (pat : List Char) : List Char → Bool
  | [] => pat.isEmpty
  | c :: rest => pat.isPrefixOf (c :: rest) || charSeqContains pat rest

/-- Go `strings.Contains s pat`. -/
def strContainsSub (s pat : String) : Bool :=
  charSeqContains pat.toList s.toList

/-- A parsed JSON document, as produced by `json.Unmarshal` into
`map[string]interface{}` / `interface{}`.  Numbers are exact rationals
(`float64` is exact on every number a claim mentions); objects are the
decoded map, read through `lookupField`. -/
inductive Json where
  | str : String → Json
  | num : ℚ → Json
  | bool : Bool → Json
  | null : Json
  | obj : List (String × Json) → Json

/-- Map indexing `payload["k"]` on a decoded JSON object. -/
def lookupField (k : String) : List (String × Json) → Option Json
  | [] => none
  | (k', v) :: rest => if k' = k then some v else lookupField k rest

/-- Go numeric conversion float64 → integral: truncation toward zero. -/
def truncToInt (q : ℚ) : Int := q.num.tdiv q.den

/-- Go conversion of a numeric value to `byte` (`byte(qosValue)`):
truncate toward zero, reduce modulo 256. -/
def byteOfNum (q : ℚ) : Fin 256 :=
  ⟨(truncToInt q % 256).toNat % 256, Nat.mod_lt _ (by decide)⟩

/-- Model of `types.MQTTMessage`.  The payload is modelled as the string of its bytes
(valid-UTF-8 payloads, the domain of the round-trip law). -/
structure MQTTMessage where
  topic : String
  payload : String
  qos : Fin 256
  retained : Bool
  timestamp : Timestamp
  deriving DecidableEq

/-- Model of `types.KafkaMessage`; `value` is the record value's JSON document. -/
structure KafkaMessage where
  key : String
  value : Json
  topic : String

/-- The RFC 3339 rendering of a `time.Time` used by `json.Marshal`.  No claim
inspects the text, so it is modelled by an injective rendering of the two
timestamp fields. -/
def rfc3339 (t : Timestamp) : String :=
  toString t.sec ++ "T" ++ toString t.nanos

/-- Model of `time.Parse(time.RFC3339, s)`, the partial inverse of `rfc3339`. -/
def parseRFC3339 (s : String) : Option Timestamp :=
  match s.splitOn "T" with
  | [a, b] =>
    match a.toInt?, b.toNat? with
    | some x, some y => some ⟨x, y⟩
    | _, _ => none
  | _ => none

/-- Embedding of `kafka.ConvertMQTTMessage` (producer.go): build the envelope JSON object
(field order as Go's map marshalling: alphabetical) and use the MQTT topic as
the Kafka key.  `json.Marshal` cannot fail on this map, so the Go error branch
is dead and the record is returned directly. -/
def ConvertMQTTMessage (mqttMsg : MQTTMessage) (kafkaTopic : String) : KafkaMessage :=
  { key := mqttMsg.topic
    value := Json.obj
      [ ("mqtt_topic", Json.str mqttMsg.topic)
      , ("payload", Json.str mqttMsg.payload)
      , ("qos", Json.num (mqttMsg.qos.val : ℚ))
      , ("retained", Json.bool mqttMsg.retained)
      , ("timestamp", Json.str (rfc3339 mqttMsg.timestamp)) ]
    topic := kafkaTopic }

/-- Embedding of `kafka.ConvertKafkaMessage` (consumer.go): unmarshal the record value;
take the MQTT topic from the Kafka key, falling back to the envelope's
`mqtt_topic` only when the key is empty; require a string `payload`; take
`qos` from any numeric value via the `byte` conversion (the Go switch's
`float64` and `int` cases agree on this), defaulting to 0; default `retained`
to false; parse the `timestamp` string, defaulting to `now` (`time.Now()`). -/
def ConvertKafkaMessage (now : Timestamp) (kafkaMsg : KafkaMessage) :
    Except String MQTTMessage :=
  match kafkaMsg.value with
  | Json.obj fields =>
    let mqttTopic :=
      if kafkaMsg.key = "" then
        match lookupField "mqtt_topic" fields with
        | some (Json.str t) => t
        | _ => ""
      else kafkaMsg.key
    match lookupField "payload" fields with
    | some (Json.str payloadStr) =>
      let qos : Fin 256 :=
        match lookupField "qos" fields with
        | some (Json.num q) => byteOfNum q
        | _ => ⟨0, by decide⟩
      let retained :=
        match lookupField "retained" fields with
        | some (Json.bool b) => b
        | _ => false
      let timestamp :=
        match lookupField "timestamp" fields with
        | some (Json.str s) => (parseRFC3339 s).getD now
        | _ => now
      Except.ok
        { topic := mqttTopic, payload := payloadStr, qos := qos
          retained := retained, timestamp := timestamp }
    | _ => Except.error "invalid payload format in Kafka message"
  | _ => Except.error "failed to unmarshal Kafka message"

/-! ## Topic mapper (`mapMQTTToKafkaTopic`, bridge package)

The mapper works on Go string *bytes* (it compares single bytes with `'/'`
and truncates at byte index 249, which may fall inside a multi-byte rune), so
it is embedded over `List Nat`, one `Nat` per byte. -/

/-- The byte `'.'`. -/
def dotByte : Nat := 46

/-- The byte `'/'`. -/
def slashByte : Nat := 47

/-- The mapper's scanning loop plus its final-segment step: walk the topic
bytes carrying the current segment (`seg`, the bytes since the last `'/'`)
and the number of levels written so far.  On each `'/'`, if fewer than
`maxLevels` levels were written, emit `'.' ++ segment`; after the loop the
final segment (possibly empty) is emitted under the same level check
(`startIdx <= len(mqttTopic)` always holds). -/
def mapSegs (maxLevels : Int) : Int → List Nat → List Nat → List Nat
  | levelCount, seg, [] =>
    if levelCount < maxLevels then dotByte :: seg else []
  | levelCount, seg, b :: rest =>
    if b = slashByte then
      if levelCount < maxLevels then
        (dotByte :: seg) ++ mapSegs maxLevels (levelCount + 1) [] rest
      else mapSegs maxLevels levelCount [] rest
    else mapSegs maxLevels levelCount (seg ++ [b]) rest

/-- The mapped topic before the 249-byte rule: the configured prefix followed
by the emitted `'.'`-separated segments. -/
def preTruncTopic (pfx : List Nat) (maxLevels : Int) (mqttTopic : List Nat) : List Nat :=
  pfx ++ mapSegs maxLevels 0 [] mqttTopic

/-- Embedding of `mapMQTTToKafkaTopic` (the bridge's MQTT→Kafka file, DLQ-integrated
version): build the prefixed dotted name, then if it exceeds 249 bytes
truncate to 249 and drop a trailing `'.'` if the truncation left one. -/
def mapMQTTToKafkaTopic (pfx : List Nat) (maxLevels : Int) (mqttTopic : List Nat) : List Nat :=
  let kafkaTopic := preTruncTopic pfx maxLevels mqttTopic
  if 249 < kafkaTopic.length then
    let t := kafkaTopic.take 249
    if t.getLast? = some dotByte then t.dropLast else t
  else kafkaTopic

/-! ## Kafka→MQTT pipeline: loop guard and record handling
(`internal/bridge/kafka_to_mqtt.go`) -/

/-- Go `strings.HasPrefix s p` (byte prefix; for the ASCII prefixes of the
loop guard, character prefix and byte prefix coincide). -/
def goStartsWith (s p : String) : Bool := p.toList.isPrefixOf s.toList

/-- Loop-guard data for `shouldSkipTopic`: skip topics starting with one of the loop-guard
prefixes. -/
def skipPrefixes : List String := ["$SYS/", "gom2k/"]

/-- Embedding of `shouldSkipTopic` (kafka_to_mqtt.go): true iff the reconstructed MQTT
topic starts with `"$SYS/"` or with `"gom2k/"`. -/
def shouldSkipTopic (mqttTopic : String) : Bool :=
  skipPrefixes.any fun p => goStartsWith mqttTopic p

/-- An MQTT publish attempt handed to the MQTT client. -/
structure PubCmd where
  topic : String
  payload : String
  qos : Fin 256
  retained : Bool

/-- A hand-off to the DLQ (`deadLetterQueue.HandleFailedMessage` call from the
Kafka→MQTT pipeline). -/
structure DLQNotify where
  original : KafkaMessage
  reason : String
  direction : String
  sourceTopic : String
  targetTopic : String

/-- What one `handleKafkaMessage` call did: the publish attempts made, the DLQ
hand-offs, and the returned error (if any). -/
structure HandleOutcome where
  published : List PubCmd
  dlq : List DLQNotify
  result : Except String Unit

/-- Embedding of `handleKafkaMessage` (kafka_to_mqtt.go): decode the record; report a
conversion error; reject an empty reconstructed topic; skip loop-guard topics
without error; otherwise publish, reporting a publish failure.  `pubErr` is
the MQTT client's response to the publish attempt (`none` = confirmed);
`hasDLQ` is whether `b.deadLetterQueue` is non-nil. -/
def handleKafkaMessage (hasDLQ : Bool) (pubErr : Option String) (now : Timestamp)
    (kafkaMsg : KafkaMessage) : HandleOutcome :=
  match ConvertKafkaMessage now kafkaMsg with
  | Except.error e =>
    let msg := "failed to convert Kafka message: " ++ e
    { published := []
      dlq := if hasDLQ then [⟨kafkaMsg, msg, "kafka-to-mqtt", kafkaMsg.topic, ""⟩] else []
      result := Except.error msg }
  | Except.ok mqttMsg =>
    if mqttMsg.topic = "" then
      let msg := "empty MQTT topic from Kafka message"
      { published := []
        dlq := if hasDLQ then [⟨kafkaMsg, msg, "kafka-to-mqtt", kafkaMsg.topic, ""⟩] else []
        result := Except.error msg }
    else if shouldSkipTopic mqttMsg.topic then
      { published := [], dlq := [], result := Except.ok () }
    else
      match pubErr with
      | none =>
        { published := [⟨mqttMsg.topic, mqttMsg.payload, mqttMsg.qos, mqttMsg.retained⟩]
          dlq := []
          result := Except.ok () }
      | some e =>
        let msg := "failed to publish to MQTT: " ++ e
        { published := [⟨mqttMsg.topic, mqttMsg.payload, mqttMsg.qos, mqttMsg.retained⟩]
          dlq := if hasDLQ then [⟨kafkaMsg, msg, "kafka-to-mqtt", kafkaMsg.topic, mqttMsg.topic⟩] else []
          result := Except.error msg }

/-! ## Bidirectional supervisor (`internal/bridge/bidirectional.go`) -/

/-- A bridge direction. -/
inductive Direction where
  | mqttToKafka
  | kafkaToMQTT
  deriving DecidableEq

/-- Model of the `bridge.features` configuration flags. -/
structure Features where
  mqttToKafka : Bool
  kafkaToMQTT : Bool

/-- Embedding of `BidirectionalBridge.Start`: launch a worker goroutine per enabled
direction, then fail with a configuration error if neither direction is
enabled.  Returns the launched workers and the call's result. -/
def startBidirectionalBridge (f : Features) : List Direction × Except String Unit :=
  let launched :=
    (if f.mqttToKafka then [Direction.mqttToKafka] else []) ++
    (if f.kafkaToMQTT then [Direction.kafkaToMQTT] else [])
  if ¬f.mqttToKafka ∧ ¬f.kafkaToMQTT then
    (launched, Except.error "no bridge directions enabled - check configuration")
  else
    (launched, Except.ok ())

/-! ## Kafka producer: `WriteMessage` and `createTopicIfNeeded`
(`internal/kafka/producer.go`)

Network outcomes are supplied by an oracle: `send n` is the outcome of the
`n`-th `writer.WriteMessages` call of this `WriteMessage` invocation
(`none` = success, `some e` = the error's text), `connectErr` is the outcome
of `createKafkaConn`, and `createErr` the outcome of `conn.CreateTopics`.
Sleeps are recorded in milliseconds, in order. -/

/-- The error substring `WriteMessage` looks for to trigger auto-creation. -/
def unknownTopicErr : String := "Unknown Topic Or Partition"

/-- Model of `strings.Contains(err.Error(), "Unknown Topic Or Partition")`. -/
def isUnknownTopicErr (e : String) : Bool := strContainsSub e unknownTopicErr

/-- Outcomes of the external calls a single `WriteMessage` invocation makes. -/
structure SendOracle where
  send : Nat → Option String
  connectErr : Option String
  createErr : Option String

/-- The `bridge.kafka` configuration the producer reads. -/
structure ProducerBridgeConfig where
  autoCreateTopics : Bool
  defaultPartitions : Int
  replicationFactor : Int

/-- What a producer call did: number of `writer.WriteMessages` calls, the
sleeps performed (ms, in order), the returned error, and the updated
created-topics set. -/
structure WriteTrace where
  sends : Nat
  sleeps : List Nat
  result : Except String Unit
  createdTopics : String → Bool

/-- Embedding of `createTopicIfNeeded` (producer.go): return immediately if the topic is
in the created set; otherwise open an admin connection, issue the create
(treating "already exists" as done), mark the topic created, and sleep 500 ms
for metadata propagation.  Returns (result, updated set, sleeps). -/
def createTopicIfNeeded (oracle : SendOracle) (createdTopics : String → Bool)
    (topicName : String) : Except String Unit × (String → Bool) × List Nat :=
  if createdTopics topicName then
    (Except.ok (), createdTopics, [])
  else
    match oracle.connectErr with
    | some e => (Except.error ("failed to create Kafka connection: " ++ e), createdTopics, [])
    | none =>
      let createOutcome :=
        match oracle.createErr with
        | some e =>
          if strContainsSub e "already exists" || strContainsSub e "Topic already exists" then
            Except.ok ()
          else
            Except.error ("failed to create topic: " ++ e)
        | none => Except.ok ()
      match createOutcome with
      | Except.error e => (Except.error e, createdTopics, [])
      | Except.ok _ =>
        (Except.ok (), fun t => if t = topicName then true else createdTopics t, [500])

/-- The retry loop of `WriteMessage` after topic creation: for `i` in the
given index list, sleep `i*200` ms and re-send; stop on success, stop early
on a non-"Unknown Topic Or Partition" error; every failure exit wraps the
most recent error.  Returns (sends made, sleeps, result). -/
def retryLoop (send : Nat → Option String) (lastErr : String) :
    List Nat → Nat × List Nat × Except String Unit
  | [] =>
    (0, [], Except.error ("failed to write message to Kafka after topic creation and retries: " ++ lastErr))
  | i :: rest =>
    match send i with
    | none => (1, [i * 200], Except.ok ())
    | some e =>
      if isUnknownTopicErr e then
        let r := retryLoop send e rest
        (r.1 + 1, (i * 200) :: r.2.1, r.2.2)
      else
        (1, [i * 200], Except.error ("failed to write message to Kafka after topic creation and retries: " ++ e))

/-- Embedding of `WriteMessage` (producer.go): send once; on an "Unknown Topic Or
Partition" error with auto-create enabled, run `createTopicIfNeeded` and then
retry up to 3 times (`i = 0,1,2`, sleeping `i*200` ms before each retry);
any other failure is wrapped and returned directly. -/
def WriteMessage (cfg : ProducerBridgeConfig) (oracle : SendOracle)
    (createdTopics : String → Bool) (topicName : String) : WriteTrace :=
  match oracle.send 0 with
  | none => ⟨1, [], Except.ok (), createdTopics⟩
  | some e =>
    if isUnknownTopicErr e && cfg.autoCreateTopics then
      match createTopicIfNeeded oracle createdTopics topicName with
      | (Except.error ce, created', ss) =>
        ⟨1, ss, Except.error ("failed to create topic " ++ topicName ++ ": " ++ ce), created'⟩
      | (Except.ok _, created', ss) =>
        let r := retryLoop (fun i => oracle.send (i + 1)) e [0, 1, 2]
        ⟨1 + r.1, ss ++ r.2.1, r.2.2, created'⟩
    else
      ⟨1, [], Except.error ("failed to write message to Kafka: " ++ e), createdTopics⟩

/-! ## Dead-letter queue (bridge package, dead-letter file)

The failure map (`dlq.failedMessages`, a Go map guarded by a mutex) is
modelled as a finite partial function `String → Option FailedMessage`.
Records handed to `sendToDeadLetterQueue` and the per-sink emissions are
collected in trace lists (newest first). -/

/-- The `interface{}` value stored as a failed message's original message. -/
inductive OriginalMessage where
  | mqtt : MQTTMessage → OriginalMessage
  | kafka : KafkaMessage → OriginalMessage
  | other : OriginalMessage

/-- Model of `types.FailedMessage`. -/
structure FailedMessage where
  originalMessage : OriginalMessage
  failureReason : String
  attemptCount : Int
  firstFailure : Timestamp
  lastAttempt : Timestamp
  direction : String
  originalTopic : String
  targetTopic : String

/-- The `bridge.dead_letter` configuration plus the nil-ness of the two sink
clients the DLQ was constructed with. -/
structure DLQConfig where
  enabled : Bool
  kafkaTopic : String
  mqttTopic : String
  maxRetries : Int
  hasKafkaProducer : Bool
  hasMqttClient : Bool

/-- A publish of a serialized DLQ record to the MQTT sink. -/
structure DLQMqttPub where
  topic : String
  record : FailedMessage
  qos : Nat
  retained : Bool

/-- DLQ state: the retry map and the emission traces (newest first).
`emitted` records every `sendToDeadLetterQueue` call; `sinkKafka` the records
produced to the Kafka DLQ topic (key, topic, record); `sinkMQTT` the records
published to the MQTT DLQ topic. -/
structure DLQState where
  failedMessages : String → Option FailedMessage
  emitted : List FailedMessage
  sinkKafka : List (String × String × FailedMessage)
  sinkMQTT : List DLQMqttPub

/-- The DLQ's initial state: empty map, nothing emitted. -/
def DLQState.initial : DLQState :=
  ⟨fun _ => none, [], [], []⟩

/-- Embedding of `createMessageKey` (dead-letter file): MQTT originals key on the message
timestamp truncated to Unix seconds; Kafka originals on the record key; other
types on the current time. -/
def createMessageKey (now : Timestamp) (originalMsg : OriginalMessage)
    (direction originalTopic : String) : String :=
  match originalMsg with
  | OriginalMessage.mqtt m =>
    direction ++ "-" ++ originalTopic ++ "-" ++ toString m.timestamp.unix
  | OriginalMessage.kafka k =>
    direction ++ "-" ++ originalTopic ++ "-" ++ k.key
  | OriginalMessage.other =>
    direction ++ "-" ++ originalTopic ++ "-" ++ toString now.unix

/-- Embedding of `sendToDeadLetterQueue` (dead-letter file): serialize the record (the
marshal cannot fail on these values) and emit it to the Kafka sink when a DLQ
Kafka topic is configured and a producer is available (key
`"dlq-{direction}-{unix seconds}"`), and to the MQTT sink when a DLQ MQTT
topic is configured and a client is available (QoS 1, not retained).  Sink
errors are only logged, so the trace records the emission attempts. -/
def sendToDeadLetterQueue (cfg : DLQConfig) (now : Timestamp)
    (failedMsg : FailedMessage) (st : DLQState) : DLQState :=
  let st1 :=
    if cfg.kafkaTopic ≠ "" ∧ cfg.hasKafkaProducer then
      { st with sinkKafka :=
          ("dlq-" ++ failedMsg.direction ++ "-" ++ toString now.unix,
            cfg.kafkaTopic, failedMsg) :: st.sinkKafka }
    else st
  let st2 :=
    if cfg.mqttTopic ≠ "" ∧ cfg.hasMqttClient then
      { st1 with sinkMQTT := ⟨cfg.mqttTopic, failedMsg, 1, false⟩ :: st1.sinkMQTT }
    else st1
  { st2 with emitted := failedMsg :: st2.emitted }

/-- Embedding of `HandleFailedMessage` (dead-letter file): with the DLQ disabled, only log.
Otherwise key the message, insert a fresh record with `attempts = 1` or
increment the existing record (updating `lastAttempt` and the reason), and if
the count has reached `max_retries`, emit the record to the sinks and delete
it from the map. -/
def HandleFailedMessage (cfg : DLQConfig) (now : Timestamp)
    (originalMsg : OriginalMessage) (failureReason direction originalTopic targetTopic : String)
    (st : DLQState) : DLQState :=
  if cfg.enabled then
    let messageKey := createMessageKey now originalMsg direction originalTopic
    let failedMsg : FailedMessage :=
      match st.failedMessages messageKey with
      | none =>
        { originalMessage := originalMsg, failureReason := failureReason
          attemptCount := 1, firstFailure := now, lastAttempt := now
          direction := direction, originalTopic := originalTopic
          targetTopic := targetTopic }
      | some prev =>
        { prev with attemptCount := prev.attemptCount + 1
                    lastAttempt := now
                    failureReason := failureReason }
    let stIns :=
      { st with failedMessages := fun k =>
          if k = messageKey then some failedMsg else st.failedMessages k }
    if cfg.maxRetries ≤ failedMsg.attemptCount then
      let stSent := sendToDeadLetterQueue cfg now failedMsg stIns
      { stSent with failedMessages := fun k =>
          if k = messageKey then none else stIns.failedMessages k }
    else
      stIns
  else
    st

/-- Iterated `HandleFailedMessage` calls with the same arguments:
`handleN … (n+1) st` is one more call after `handleN … n st`. -/
def handleN (cfg : DLQConfig) (now : Timestamp) (originalMsg : OriginalMessage)
    (failureReason direction originalTopic targetTopic : String) :
    Nat → DLQState → DLQState
  | 0, st => st
  | n + 1, st =>
    HandleFailedMessage cfg now originalMsg failureReason direction originalTopic targetTopic
      (handleN cfg now originalMsg failureReason direction originalTopic targetTopic n st)

/-- The DLQ states reachable at runtime: the initial state, closed under
`HandleFailedMessage` calls (with any arguments) and under the retry loop's
removal of a record after a successful redelivery (`retryMessage`). -/
inductive DLQReachable (cfg : DLQConfig) : DLQState → Prop where
  | init : DLQReachable cfg DLQState.initial
  | handle (st : DLQState) (now : Timestamp) (originalMsg : OriginalMessage)
      (failureReason direction originalTopic targetTopic : String) :
      DLQReachable cfg st →
      DLQReachable cfg
        (HandleFailedMessage cfg now originalMsg failureReason direction originalTopic
          targetTopic st)
  | retrySuccess (st : DLQState) (key : String) :
      DLQReachable cfg st →
      DLQReachable cfg
        { st with failedMessages := fun k => if k = key then none else st.failedMessages k }

/-- The failed-message record that the `j`-th consecutive failure of the same
message produces when every call reports the same reason at the same clock
reading (used to state the DLQ claims). -/
def mkFailedRecord (originalMsg : OriginalMessage)
    (reason direction originalTopic targetTopic : String) (now : Timestamp)
    (j : Int) : FailedMessage :=
  { originalMessage := originalMsg, failureReason := reason, attemptCount := j
    firstFailure := now, lastAttempt := now, direction := direction
    originalTopic := originalTopic, targetTopic := targetTopic }

/-- Records in the DLQ map always have an attempt count below `max_retries`. -/
def DLQInv (cfg : DLQConfig) (st : DLQState) : Prop :=
  ∀ k fm, st.failedMessages k = some fm → fm.attemptCount < cfg.maxRetries

/-! # Theorems -/

/-- C7 — Supervisor start precondition: with both direction feature flags
false, `BidirectionalBridge.Start` returns the configuration error and
launches no direction worker. -/
theorem bidirectional_start_both_disabled (f : Features)
    (hm : f.mqttToKafka = false) (hk : f.kafkaToMQTT = false) :
    startBidirectionalBridge f =
      ([], Except.error "no bridge directions enabled - check configuration") := by
  simp [startBidirectionalBridge, hm, hk]

/-- Witness for C7 at the concrete all-disabled configuration. -/
theorem bidirectional_start_both_disabled_witness :
    startBidirectionalBridge ⟨false, false⟩ =
      ([], Except.error "no bridge directions enabled - check configuration") :=
  bidirectional_start_both_disabled ⟨false, false⟩ rfl rfl

/-- C4 — the code, evaluated at the failing input: mapping the empty MQTT
topic with prefix `"gom2k"` (bytes `103 111 109 50 107`) and `max_levels = 3`
yields `"gom2k."` — the prefix with a `'.'` and an empty segment appended —
not the bare prefix the spec (and the repo's own mapping unit test) require. -/
theorem map_empty_topic_appends_dot :
    mapMQTTToKafkaTopic [103, 111, 109, 50, 107] 3 [] =
      [103, 111, 109, 50, 107, 46] ∧
    ([103, 111, 109, 50, 107, 46] : List Nat) ≠ [103, 111, 109, 50, 107] := by
  constructor
  · decide
  · decide

/-- Unfolding of the mapper into its truncation case split. -/
theorem map_cases (pfx : List Nat) (maxLevels : Int) (mqttTopic : List Nat) :
    mapMQTTToKafkaTopic pfx maxLevels mqttTopic =
      if 249 < (preTruncTopic pfx maxLevels mqttTopic).length then
        if ((preTruncTopic pfx maxLevels mqttTopic).take 249).getLast? = some dotByte then
          ((preTruncTopic pfx maxLevels mqttTopic).take 249).dropLast
        else
          (preTruncTopic pfx maxLevels mqttTopic).take 249
      else
        preTruncTopic pfx maxLevels mqttTopic := rfl

/-- C2 — Mapper length bound: the mapped Kafka topic never exceeds 249
bytes, and whenever the pre-truncation name exceeded 249 bytes and the
truncation left a trailing `'.'`, that trailing `'.'` is dropped. -/
theorem map_length_bound (pfx : List Nat) (maxLevels : Int) (mqttTopic : List Nat) :
    (mapMQTTToKafkaTopic pfx maxLevels mqttTopic).length ≤ 249 ∧
    (249 < (preTruncTopic pfx maxLevels mqttTopic).length →
      ((preTruncTopic pfx maxLevels mqttTopic).take 249).getLast? = some dotByte →
      mapMQTTToKafkaTopic pfx maxLevels mqttTopic =
        ((preTruncTopic pfx maxLevels mqttTopic).take 249).dropLast) := by
  constructor
  · rw [map_cases]
    split_ifs with h1 h2
    · have := List.length_dropLast ((preTruncTopic pfx maxLevels mqttTopic).take 249)
      have := List.length_take 249 (preTruncTopic pfx maxLevels mqttTopic)
      omega
    · have := List.length_take 249 (preTruncTopic pfx maxLevels mqttTopic)
      omega
    · omega
  · intro h1 h2
    rw [map_cases, if_pos h1, if_pos h2]

set_option maxRecDepth 8192 in
/-- Witness for C2: a 248-byte prefix with topic `"b"` overflows to 250
bytes, the truncation to 249 ends with `'.'`, and the mapper drops it. -/
theorem map_length_bound_witness :
    249 < (preTruncTopic (List.replicate 248 97) 1 [98]).length ∧
    ((preTruncTopic (List.replicate 248 97) 1 [98]).take 249).getLast? = some dotByte ∧
    (mapMQTTToKafkaTopic (List.replicate 248 97) 1 [98]).length ≤ 249 ∧
    mapMQTTToKafkaTopic (List.replicate 248 97) 1 [98] =
      ((preTruncTopic (List.replicate 248 97) 1 [98]).take 249).dropLast := by
  have h := map_length_bound (List.replicate 248 97) 1 [98]
  exact ⟨by decide, by decide, h.1, h.2 (by decide) (by decide)⟩

/-- C3 — the code, evaluated at the failing input (the repo's own unit test
case "Missing mqtt_topic in payload"): the envelope has no `mqtt_topic`
field and the record's Kafka key is `"test/topic"`.  `ConvertKafkaMessage`
does not fail with a missing-topic error — it succeeds, and it takes the
reconstructed MQTT topic from the Kafka key. -/
theorem convertKafka_missing_topic_uses_key :
    ConvertKafkaMessage ⟨0, 0⟩
      { key := "test/topic"
        value := Json.obj
          [ ("payload", Json.str "test-data")
          , ("qos", Json.num 0)
          , ("retained", Json.bool false) ]
        topic := "gom2k.test" } =
    Except.ok
      { topic := "test/topic", payload := "test-data", qos := 0
        retained := false, timestamp := ⟨0, 0⟩ } := by
  rfl

/-- C9 — counterexample to "produces a byte in the range 0–2": an envelope
whose `qos` field holds 7 decodes successfully to QoS 7, which is not in
0–2 (the code truncates to a byte but never clamps to the range). -/
theorem convertKafka_qos_seven_not_clamped :
    ConvertKafkaMessage ⟨0, 0⟩
      { key := "t"
        value := Json.obj [("payload", Json.str "x"), ("qos", Json.num 7)]
        topic := "k" } =
    Except.ok
      { topic := "t", payload := "x", qos := 7, retained := false
        timestamp := ⟨0, 0⟩ } ∧
    ¬ ((7 : Nat) ≤ 2) := by
  exact ⟨rfl, by decide⟩

/-- C9 (amended) — QoS decoding: on a successfully decoded record, the QoS
comes from the envelope's `qos` value when that value is a JSON number
(integer or floating-point), truncated toward zero and reduced to a byte
with no clamping to 0–2, and defaults to 0 when the field is absent. -/
theorem convertKafka_qos_decoding (fields : List (String × Json))
    (key ktopic : String) (now : Timestamp) (m : MQTTMessage) (q : ℚ)
    (h : ConvertKafkaMessage now ⟨key, Json.obj fields, ktopic⟩ = Except.ok m) :
    (lookupField "qos" fields = none → m.qos.val = 0) ∧
    (lookupField "qos" fields = some (Json.num q) →
      m.qos.val = ((q.num.tdiv q.den) % 256).toNat % 256) := by
  unfold ConvertKafkaMessage at h
  simp only at h
  rcases hp : lookupField "payload" fields with _ | j
  · rw [hp] at h
    simp at h
  · rw [hp] at h
    cases j with
    | str payloadStr =>
      simp only at h
      have hm := (Except.ok.injEq _ _).mp h.symm
      constructor
      · intro hq
        rw [hm]
        simp [hq]
      · intro hq
        rw [hm]
        simp [hq, byteOfNum, truncToInt]
    | num q2 => simp at h
    | bool b => simp at h
    | null => simp at h
    | obj o => simp at h

/-- Witness for C9 (amended): the floating-point value 1.5 (= `mkRat 3 2`)
decodes to QoS 1 by truncation. -/
theorem convertKafka_qos_decoding_witness :
    ConvertKafkaMessage ⟨0, 0⟩
      ⟨"t", Json.obj [("payload", Json.str "x"), ("qos", Json.num (mkRat 3 2))], "k"⟩ =
      Except.ok
        { topic := "t", payload := "x", qos := 1, retained := false
          timestamp := ⟨0, 0⟩ } ∧
    ({ topic := "t", payload := "x", qos := 1, retained := false
       timestamp := (⟨0, 0⟩ : Timestamp) } : MQTTMessage).qos.val =
      ((mkRat 3 2).num.tdiv (mkRat 3 2).den % 256).toNat % 256 := by
  have h := convertKafka_qos_decoding
    [("payload", Json.str "x"), ("qos", Json.num (mkRat 3 2))] "t" "k" ⟨0, 0⟩
    { topic := "t", payload := "x", qos := 1, retained := false, timestamp := ⟨0, 0⟩ }
    (mkRat 3 2) rfl
  exact ⟨rfl, h.2 rfl⟩

/-- The byte conversion is the identity on values that were bytes: encoding a
QoS byte as a JSON number and converting it back yields the same byte. -/
theorem byteOfNum_coe (b : Fin 256) : byteOfNum ((b.val : ℚ)) = b := by
  have hb := b.isLt
  apply Fin.ext
  simp only [byteOfNum, truncToInt, Rat.num_natCast, Rat.den_natCast, Nat.cast_one,
    Int.tdiv_one]
  omega

/-- C1 — Codec round-trip: converting any MQTT publication (with valid-UTF-8
payload, the domain of `payload : String`) to a Kafka record with
`ConvertMQTTMessage` and decoding that record with `ConvertKafkaMessage`
succeeds and restores the original topic, payload, QoS, and retain flag. -/
theorem codec_round_trip (m : MQTTMessage) (kafkaTopic : String) (now : Timestamp) :
    ∃ m' : MQTTMessage,
      ConvertKafkaMessage now (ConvertMQTTMessage m kafkaTopic) = Except.ok m' ∧
      m'.topic = m.topic ∧ m'.payload = m.payload ∧
      m'.qos = m.qos ∧ m'.retained = m.retained := by
  refine ⟨{ topic := m.topic, payload := m.payload, qos := m.qos
            retained := m.retained
            timestamp := (parseRFC3339 (rfc3339 m.timestamp)).getD now }, ?_, rfl, rfl, rfl, rfl⟩
  by_cases h : m.topic = "" <;>
    simp [ConvertKafkaMessage, ConvertMQTTMessage, lookupField, h, byteOfNum_coe]

/-- C6 — Loop guard: a Kafka record whose reconstructed MQTT topic starts
with `"$SYS/"` or with `"gom2k/"` is never published to the MQTT broker —
`handleKafkaMessage` produces no publish attempt, no DLQ hand-off, and no
error for it. -/
theorem loop_guard_skips (hasDLQ : Bool) (pubErr : Option String)
    (now : Timestamp) (kafkaMsg : KafkaMessage) (m : MQTTMessage)
    (hconv : ConvertKafkaMessage now kafkaMsg = Except.ok m)
    (hskip : goStartsWith m.topic "$SYS/" = true ∨ goStartsWith m.topic "gom2k/" = true) :
    handleKafkaMessage hasDLQ pubErr now kafkaMsg =
      { published := [], dlq := [], result := Except.ok () } := by
  have hne : ¬ m.topic = "" := by
    intro he
    rcases hskip with hp | hp <;> rw [he] at hp <;> exact absurd hp (by decide)
  have hs : shouldSkipTopic m.topic = true := by
    simp only [shouldSkipTopic, skipPrefixes, List.any_cons, List.any_nil,
      Bool.or_eq_true, Bool.or_false]
    tauto
  unfold handleKafkaMessage
  rw [hconv]
  simp [hne, hs]

/-- Witness for C6 at end-to-end scenario 6: a record for
`"gom2k/internal/status"` is skipped with no publish and no error. -/
theorem loop_guard_skips_witness :
    ConvertKafkaMessage ⟨0, 0⟩
      ⟨"gom2k/internal/status", Json.obj [("payload", Json.str "test-data")],
        "gom2k.internal.status"⟩ =
      Except.ok
        { topic := "gom2k/internal/status", payload := "test-data", qos := 0
          retained := false, timestamp := ⟨0, 0⟩ } ∧
    goStartsWith "gom2k/internal/status" "gom2k/" = true ∧
    handleKafkaMessage true none ⟨0, 0⟩
      ⟨"gom2k/internal/status", Json.obj [("payload", Json.str "test-data")],
        "gom2k.internal.status"⟩ =
      { published := [], dlq := [], result := Except.ok () } := by
  refine ⟨rfl, by decide, ?_⟩
  exact loop_guard_skips true none ⟨0, 0⟩ _ _ rfl (Or.inr (by decide))

/-- C8 — counterexample to "retries the produce exactly once": with
auto-create enabled and every send failing with an "Unknown Topic Or
Partition" error, `WriteMessage` performs 4 sends (the initial send plus 3
retries), not the 2 sends (initial plus exactly one retry) the claim
describes. -/
theorem writeMessage_retries_three_times :
    (WriteMessage ⟨true, 3, 1⟩
      ⟨fun _ => some "Unknown Topic Or Partition", none, none⟩
      (fun _ => false) "gom2k.test").sends = 4 ∧ (4 : Nat) ≠ 2 := by
  exact ⟨rfl, by decide⟩

/-- C8 (amended) — auto-create retry: when a send fails with an "Unknown
Topic Or Partition" error and auto-create is enabled, the producer runs the
topic-creation fallback (sleeping 500 ms for metadata propagation) and then
retries up to 3 times with backoff sleeps of 0, 200 and 400 ms, stopping
early on success and propagating the most recent error if the retries fail
(`o1`: every retry fails — 4 sends, the last error propagated;
`o2`: the first retry succeeds — 2 sends, success). -/
theorem writeMessage_autocreate_retry (cfg : ProducerBridgeConfig)
    (o1 o2 : SendOracle) (created : String → Bool) (topicName : String)
    (e0 e1 e2 e3 f0 : String)
    (hAuto : cfg.autoCreateTopics = true)
    (hNotCreated : created topicName = false)
    (hConn1 : o1.connectErr = none) (hCreate1 : o1.createErr = none)
    (h10 : o1.send 0 = some e0) (hU0 : isUnknownTopicErr e0 = true)
    (h11 : o1.send 1 = some e1) (hU1 : isUnknownTopicErr e1 = true)
    (h12 : o1.send 2 = some e2) (hU2 : isUnknownTopicErr e2 = true)
    (h13 : o1.send 3 = some e3)
    (hConn2 : o2.connectErr = none) (hCreate2 : o2.createErr = none)
    (h20 : o2.send 0 = some f0) (hV0 : isUnknownTopicErr f0 = true)
    (h21 : o2.send 1 = none) :
    WriteMessage cfg o1 created topicName =
      ⟨4, [500, 0, 200, 400],
        Except.error
          ("failed to write message to Kafka after topic creation and retries: " ++ e3),
        fun t => if t = topicName then true else created t⟩ ∧
    WriteMessage cfg o2 created topicName =
      ⟨2, [500, 0], Except.ok (),
        fun t => if t = topicName then true else created t⟩ := by
  constructor
  · unfold WriteMessage
    rw [h10]
    simp only [hU0, hAuto, Bool.and_self, if_true]
    unfold createTopicIfNeeded
    rw [hNotCreated, hConn1, hCreate1]
    simp only [if_false, Bool.false_eq_true]
    simp [retryLoop, h11, h12, h13, hU1, hU2]
  · unfold WriteMessage
    rw [h20]
    simp only [hV0, hAuto, Bool.and_self, if_true]
    unfold createTopicIfNeeded
    rw [hNotCreated, hConn2, hCreate2]
    simp only [if_false, Bool.false_eq_true]
    simp [retryLoop, h21]

/-- Witness for C8 (amended) at concrete oracles: one where every send fails
with "Unknown Topic Or Partition" and one where the first retry succeeds. -/
theorem writeMessage_autocreate_retry_witness :
    WriteMessage ⟨true, 3, 1⟩
      ⟨fun _ => some "Unknown Topic Or Partition", none, none⟩
      (fun _ => false) "gom2k.test" =
      ⟨4, [500, 0, 200, 400],
        Except.error
          ("failed to write message to Kafka after topic creation and retries: " ++
            "Unknown Topic Or Partition"),
        fun t => if t = "gom2k.test" then true else (fun _ => false) t⟩ ∧
    WriteMessage ⟨true, 3, 1⟩
      ⟨fun n => if n = 1 then none else some "Unknown Topic Or Partition", none, none⟩
      (fun _ => false) "gom2k.test" =
      ⟨2, [500, 0], Except.ok (),
        fun t => if t = "gom2k.test" then true else (fun _ => false) t⟩ := by
  exact writeMessage_autocreate_retry ⟨true, 3, 1⟩
    ⟨fun _ => some "Unknown Topic Or Partition", none, none⟩
    ⟨fun n => if n = 1 then none else some "Unknown Topic Or Partition", none, none⟩
    (fun _ => false) "gom2k.test"
    "Unknown Topic Or Partition" "Unknown Topic Or Partition"
    "Unknown Topic Or Partition" "Unknown Topic Or Partition"
    "Unknown Topic Or Partition"
    rfl rfl rfl rfl rfl rfl rfl rfl rfl rfl rfl rfl rfl rfl rfl rfl

/-- A first failure below the retry cap inserts a fresh record with one
attempt. -/
theorem handle_fresh_keep (cfg : DLQConfig) (now : Timestamp)
    (msg : OriginalMessage) (reason dir ot tt : String) (st : DLQState)
    (hen : cfg.enabled = true)
    (hfresh : st.failedMessages (createMessageKey now msg dir ot) = none)
    (hlt : 1 < cfg.maxRetries) :
    HandleFailedMessage cfg now msg reason dir ot tt st =
      { st with failedMessages := fun k =>
          if k = createMessageKey now msg dir ot then
            some (mkFailedRecord msg reason dir ot tt now 1)
          else st.failedMessages k } := by
  unfold HandleFailedMessage
  simp only [hen, if_true, hfresh, mkFailedRecord]
  rw [if_neg (by omega)]

/-- A repeat failure below the retry cap increments the existing record in
place, updating the reason and the last-attempt time. -/
theorem handle_incr_keep (cfg : DLQConfig) (now : Timestamp)
    (msg : OriginalMessage) (reason dir ot tt : String) (st : DLQState)
    (prev : FailedMessage)
    (hen : cfg.enabled = true)
    (hprev : st.failedMessages (createMessageKey now msg dir ot) = some prev)
    (hlt : prev.attemptCount + 1 < cfg.maxRetries) :
    HandleFailedMessage cfg now msg reason dir ot tt st =
      { st with failedMessages := fun k =>
          if k = createMessageKey now msg dir ot then
            some { prev with attemptCount := prev.attemptCount + 1
                             lastAttempt := now, failureReason := reason }
          else st.failedMessages k } := by
  unfold HandleFailedMessage
  simp only [hen, if_true, hprev]
  rw [if_neg (by omega)]

/-- A repeat failure that reaches the retry cap emits the incremented record
to the configured, available sinks and deletes it from the map. -/
theorem handle_incr_cap (cfg : DLQConfig) (now : Timestamp)
    (msg : OriginalMessage) (reason dir ot tt : String) (st : DLQState)
    (prev : FailedMessage)
    (hen : cfg.enabled = true)
    (hprev : st.failedMessages (createMessageKey now msg dir ot) = some prev)
    (hcap : cfg.maxRetries ≤ prev.attemptCount + 1) :
    HandleFailedMessage cfg now msg reason dir ot tt st =
      { failedMessages := fun k =>
          if k = createMessageKey now msg dir ot then none
          else st.failedMessages k
        emitted :=
          { prev with attemptCount := prev.attemptCount + 1
                      lastAttempt := now, failureReason := reason } :: st.emitted
        sinkKafka :=
          if cfg.kafkaTopic ≠ "" ∧ cfg.hasKafkaProducer = true then
            ("dlq-" ++ prev.direction ++ "-" ++ toString now.unix, cfg.kafkaTopic,
              { prev with attemptCount := prev.attemptCount + 1
                          lastAttempt := now, failureReason := reason }) :: st.sinkKafka
          else st.sinkKafka
        sinkMQTT :=
          if cfg.mqttTopic ≠ "" ∧ cfg.hasMqttClient = true then
            ⟨cfg.mqttTopic,
              { prev with attemptCount := prev.attemptCount + 1
                          lastAttempt := now, failureReason := reason }, 1, false⟩ :: st.sinkMQTT
          else st.sinkMQTT } := by
  unfold HandleFailedMessage sendToDeadLetterQueue
  simp only [hen, if_true, hprev]
  rw [if_pos (by omega)]
  split_ifs <;> congr 1

/-- A first failure that already reaches the retry cap (`max_retries ≤ 1`)
emits the fresh one-attempt record and leaves the key unmapped. -/
theorem handle_fresh_cap (cfg : DLQConfig) (now : Timestamp)
    (msg : OriginalMessage) (reason dir ot tt : String) (st : DLQState)
    (hen : cfg.enabled = true)
    (hfresh : st.failedMessages (createMessageKey now msg dir ot) = none)
    (hcap : cfg.maxRetries ≤ 1) :
    HandleFailedMessage cfg now msg reason dir ot tt st =
      { failedMessages := fun k =>
          if k = createMessageKey now msg dir ot then none
          else st.failedMessages k
        emitted := mkFailedRecord msg reason dir ot tt now 1 :: st.emitted
        sinkKafka :=
          if cfg.kafkaTopic ≠ "" ∧ cfg.hasKafkaProducer = true then
            ("dlq-" ++ dir ++ "-" ++ toString now.unix, cfg.kafkaTopic,
              mkFailedRecord msg reason dir ot tt now 1) :: st.sinkKafka
          else st.sinkKafka
        sinkMQTT :=
          if cfg.mqttTopic ≠ "" ∧ cfg.hasMqttClient = true then
            ⟨cfg.mqttTopic, mkFailedRecord msg reason dir ot tt now 1, 1, false⟩ :: st.sinkMQTT
          else st.sinkMQTT } := by
  unfold HandleFailedMessage sendToDeadLetterQueue
  simp only [hen, if_true, hfresh, mkFailedRecord]
  rw [if_pos (by omega)]
  split_ifs <;> congr 1

/-- With the DLQ disabled, `HandleFailedMessage` only logs. -/
theorem handle_disabled (cfg : DLQConfig) (now : Timestamp)
    (msg : OriginalMessage) (reason dir ot tt : String) (st : DLQState)
    (hen : cfg.enabled = false) :
    HandleFailedMessage cfg now msg reason dir ot tt st = st := by
  unfold HandleFailedMessage
  simp [hen]

/-- One `HandleFailedMessage` call preserves the map invariant
`attempts < max_retries`. -/
theorem handle_preserves_inv (cfg : DLQConfig) (now : Timestamp)
    (msg : OriginalMessage) (reason dir ot tt : String) (st : DLQState)
    (h : DLQInv cfg st) :
    DLQInv cfg (HandleFailedMessage cfg now msg reason dir ot tt st) := by
  intro k fm hk
  cases hen : cfg.enabled with
  | false =>
    rw [handle_disabled cfg now msg reason dir ot tt st hen] at hk
    exact h k fm hk
  | true =>
    rcases hprev : st.failedMessages (createMessageKey now msg dir ot) with _ | prev
    · by_cases hcap : cfg.maxRetries ≤ 1
      · rw [handle_fresh_cap cfg now msg reason dir ot tt st hen hprev hcap] at hk
        simp only at hk
        by_cases hkk : k = createMessageKey now msg dir ot
        · rw [if_pos hkk] at hk
          exact absurd hk (by simp)
        · exact h k fm (by rwa [if_neg hkk] at hk)
      · rw [handle_fresh_keep cfg now msg reason dir ot tt st hen hprev (by omega)] at hk
        simp only at hk
        by_cases hkk : k = createMessageKey now msg dir ot
        · rw [if_pos hkk] at hk
          rw [← Option.some.inj hk]
          simp only [mkFailedRecord]
          omega
        · exact h k fm (by rwa [if_neg hkk] at hk)
    · by_cases hcap : cfg.maxRetries ≤ prev.attemptCount + 1
      · rw [handle_incr_cap cfg now msg reason dir ot tt st prev hen hprev hcap] at hk
        simp only at hk
        by_cases hkk : k = createMessageKey now msg dir ot
        · rw [if_pos hkk] at hk
          exact absurd hk (by simp)
        · exact h k fm (by rwa [if_neg hkk] at hk)
      · rw [handle_incr_keep cfg now msg reason dir ot tt st prev hen hprev (by omega)] at hk
        simp only at hk
        by_cases hkk : k = createMessageKey now msg dir ot
        · rw [if_pos hkk] at hk
          rw [← Option.some.inj hk]
          simp only
          omega
        · exact h k fm (by rwa [if_neg hkk] at hk)

/-- Every runtime-reachable DLQ state satisfies the map invariant: a stored
record always has `attempts < max_retries`. -/
theorem reachable_inv (cfg : DLQConfig) (st : DLQState)
    (h : DLQReachable cfg st) : DLQInv cfg st := by
  induction h with
  | init =>
    intro k fm hk
    exact absurd hk (by simp [DLQState.initial])
  | handle st now msg reason dir ot tt hr ih =>
    exact handle_preserves_inv cfg now msg reason dir ot tt st ih
  | retrySuccess st key hr ih =>
    intro k fm hk
    simp only at hk
    by_cases hkk : k = key
    · rw [if_pos hkk] at hk
      exact absurd hk (by simp)
    · exact ih k fm (by rwa [if_neg hkk] at hk)

/-- After `j` consecutive failures of the same message (with `j` below the
retry cap), the map holds exactly one record for its key, with `attempts = j`,
and nothing has been emitted. -/
theorem handleN_mid (cfg : DLQConfig) (now : Timestamp)
    (msg : OriginalMessage) (reason dir ot tt : String) (st : DLQState)
    (hen : cfg.enabled = true)
    (hfresh : st.failedMessages (createMessageKey now msg dir ot) = none) :
    ∀ j : Nat, 1 ≤ j → (j : Int) < cfg.maxRetries →
      handleN cfg now msg reason dir ot tt j st =
        { st with failedMessages := fun k =>
            if k = createMessageKey now msg dir ot then
              some (mkFailedRecord msg reason dir ot tt now (j : Int))
            else st.failedMessages k } := by
  intro j
  induction j with
  | zero => omega
  | succ n ih =>
    intro _ hlt
    by_cases hn : n = 0
    · subst hn
      simp only [handleN]
      rw [handle_fresh_keep cfg now msg reason dir ot tt st hen hfresh (by push_cast at hlt; omega)]
      norm_num
    · have hltn : (n : Int) < cfg.maxRetries := by push_cast at hlt ⊢; omega
      simp only [handleN]
      rw [ih (by omega) hltn]
      rw [handle_incr_keep cfg now msg reason dir ot tt _
        (mkFailedRecord msg reason dir ot tt now (n : Int)) hen (by simp)
        (by simp only [mkFailedRecord]; push_cast at hlt; omega)]
      congr 1
      funext k
      by_cases hk : k = createMessageKey now msg dir ot <;>
        simp [hk, mkFailedRecord]

/-- After exactly `max_retries` consecutive failures of the same message
(starting from a state without its key), the key is gone from the map, the
record — carrying `attempts = max_retries` — has been handed to the sink
emission, and each configured, available sink received it. -/
theorem handleN_cap (cfg : DLQConfig) (now : Timestamp)
    (msg : OriginalMessage) (reason dir ot tt : String) (st : DLQState)
    (hen : cfg.enabled = true)
    (hfresh : st.failedMessages (createMessageKey now msg dir ot) = none)
    (hmax : 1 ≤ cfg.maxRetries) :
    handleN cfg now msg reason dir ot tt cfg.maxRetries.toNat st =
      { failedMessages := st.failedMessages
        emitted := mkFailedRecord msg reason dir ot tt now cfg.maxRetries :: st.emitted
        sinkKafka :=
          if cfg.kafkaTopic ≠ "" ∧ cfg.hasKafkaProducer = true then
            ("dlq-" ++ dir ++ "-" ++ toString now.unix, cfg.kafkaTopic,
              mkFailedRecord msg reason dir ot tt now cfg.maxRetries) :: st.sinkKafka
          else st.sinkKafka
        sinkMQTT :=
          if cfg.mqttTopic ≠ "" ∧ cfg.hasMqttClient = true then
            ⟨cfg.mqttTopic, mkFailedRecord msg reason dir ot tt now cfg.maxRetries,
              1, false⟩ :: st.sinkMQTT
          else st.sinkMQTT } := by
  rcases hn : cfg.maxRetries.toNat with _ | m
  · omega
  · by_cases hm : m = 0
    · subst hm
      have hone : cfg.maxRetries = 1 := by omega
      simp only [handleN]
      rw [handle_fresh_cap cfg now msg reason dir ot tt st hen hfresh (by omega)]
      rw [hone]
      congr 1
      funext k
      by_cases hk : k = createMessageKey now msg dir ot <;> simp [hk, hfresh]
    · have hmi : ((m : Int) + 1) = cfg.maxRetries := by omega
      simp only [handleN]
      rw [handleN_mid cfg now msg reason dir ot tt st hen hfresh m (by omega) (by omega)]
      rw [handle_incr_cap cfg now msg reason dir ot tt _
        (mkFailedRecord msg reason dir ot tt now (m : Int)) hen (by simp)
        (by simp only [mkFailedRecord]; omega)]
      rw [← hmi]
      congr 1
      funext k
      by_cases hk : k = createMessageKey now msg dir ot <;> simp [hk, hfresh]

/-- C5 — DLQ retry cap: in every runtime-reachable DLQ state a stored retry
record has `attempts < max_retries` (so a record exists for a key only while
its attempt count is below the cap), and after exactly `max_retries` calls to
`HandleFailedMessage` for the same key (starting without that key) the record
is gone from the map and has been handed to sink emission — each configured,
available DLQ sink receiving the serialized record. -/
theorem dlq_retry_cap (cfg : DLQConfig) (stR : DLQState) (k : String)
    (fm : FailedMessage) (st : DLQState) (now : Timestamp)
    (msg : OriginalMessage) (reason dir ot tt : String)
    (hR : DLQReachable cfg stR)
    (hk : stR.failedMessages k = some fm)
    (hen : cfg.enabled = true)
    (hmax : 1 ≤ cfg.maxRetries)
    (hfresh : st.failedMessages (createMessageKey now msg dir ot) = none) :
    fm.attemptCount < cfg.maxRetries ∧
    handleN cfg now msg reason dir ot tt cfg.maxRetries.toNat st =
      { failedMessages := st.failedMessages
        emitted := mkFailedRecord msg reason dir ot tt now cfg.maxRetries :: st.emitted
        sinkKafka :=
          if cfg.kafkaTopic ≠ "" ∧ cfg.hasKafkaProducer = true then
            ("dlq-" ++ dir ++ "-" ++ toString now.unix, cfg.kafkaTopic,
              mkFailedRecord msg reason dir ot tt now cfg.maxRetries) :: st.sinkKafka
          else st.sinkKafka
        sinkMQTT :=
          if cfg.mqttTopic ≠ "" ∧ cfg.hasMqttClient = true then
            ⟨cfg.mqttTopic, mkFailedRecord msg reason dir ot tt now cfg.maxRetries,
              1, false⟩ :: st.sinkMQTT
          else st.sinkMQTT } :=
  ⟨reachable_inv cfg stR hR k fm hk,
    handleN_cap cfg now msg reason dir ot tt st hen hfresh hmax⟩

/-- Witness for C5 at the repo's own DLQ unit-test scenario:
`max_retries = 2`, Kafka sink `"test-dlq"` with a producer available, no MQTT
sink; after the first failure the record (1 attempt) is in a reachable state's
map, and after the second call the map is back to empty and the record was
emitted to the Kafka sink. -/
theorem dlq_retry_cap_witness :
    (mkFailedRecord
      (OriginalMessage.mqtt ⟨"test/topic", "test payload", 0, false, ⟨5, 0⟩⟩)
      "test error" "mqtt-to-kafka" "test/topic" "gom2k.test.topic" ⟨100, 0⟩
      1).attemptCount < (2 : Int) ∧
    handleN ⟨true, "test-dlq", "", 2, true, false⟩ ⟨100, 0⟩
      (OriginalMessage.mqtt ⟨"test/topic", "test payload", 0, false, ⟨5, 0⟩⟩)
      "test error" "mqtt-to-kafka" "test/topic" "gom2k.test.topic"
      (Int.toNat 2) DLQState.initial =
      { failedMessages := DLQState.initial.failedMessages
        emitted :=
          [mkFailedRecord
            (OriginalMessage.mqtt ⟨"test/topic", "test payload", 0, false, ⟨5, 0⟩⟩)
            "test error" "mqtt-to-kafka" "test/topic" "gom2k.test.topic" ⟨100, 0⟩ 2]
        sinkKafka :=
          [("dlq-mqtt-to-kafka-100", "test-dlq",
            mkFailedRecord
              (OriginalMessage.mqtt ⟨"test/topic", "test payload", 0, false, ⟨5, 0⟩⟩)
              "test error" "mqtt-to-kafka" "test/topic" "gom2k.test.topic" ⟨100, 0⟩ 2)]
        sinkMQTT := [] } := by
  have h := dlq_retry_cap ⟨true, "test-dlq", "", 2, true, false⟩
    (HandleFailedMessage ⟨true, "test-dlq", "", 2, true, false⟩ ⟨100, 0⟩
      (OriginalMessage.mqtt ⟨"test/topic", "test payload", 0, false, ⟨5, 0⟩⟩)
      "test error" "mqtt-to-kafka" "test/topic" "gom2k.test.topic" DLQState.initial)
    "mqtt-to-kafka-test/topic-5"
    (mkFailedRecord
      (OriginalMessage.mqtt ⟨"test/topic", "test payload", 0, false, ⟨5, 0⟩⟩)
      "test error" "mqtt-to-kafka" "test/topic" "gom2k.test.topic" ⟨100, 0⟩ 1)
    DLQState.initial ⟨100, 0⟩
    (OriginalMessage.mqtt ⟨"test/topic", "test payload", 0, false, ⟨5, 0⟩⟩)
    "test error" "mqtt-to-kafka" "test/topic" "gom2k.test.topic"
    (DLQReachable.handle DLQState.initial ⟨100, 0⟩
      (OriginalMessage.mqtt ⟨"test/topic", "test payload", 0, false, ⟨5, 0⟩⟩)
      "test error" "mqtt-to-kafka" "test/topic" "gom2k.test.topic"
      DLQReachable.init)
    rfl rfl (by decide) rfl
  exact ⟨h.1, h.2⟩

/-- C10 — DLQ key granularity: for MQTT-sourced failures the retry key is
`direction-topic-⌊timestamp⌋s`, so two distinct failed MQTT messages with the
same direction and source topic whose timestamps fall in the same Unix second
share one key; after the two failures (below the retry cap) the map holds a
single shared record whose attempt count is 2 — the second call incremented
the first record (keeping its original message and first-failure time)
instead of creating a new one. -/
theorem dlq_key_granularity (cfg : DLQConfig) (m1 m2 : MQTTMessage)
    (dir ot tt1 tt2 r1 r2 : String) (now1 now2 : Timestamp) (st : DLQState)
    (hsec : m1.timestamp.unix = m2.timestamp.unix)
    (hen : cfg.enabled = true)
    (hmax : 2 < cfg.maxRetries)
    (hfresh : st.failedMessages
      (createMessageKey now1 (OriginalMessage.mqtt m1) dir ot) = none) :
    createMessageKey now1 (OriginalMessage.mqtt m1) dir ot =
      createMessageKey now2 (OriginalMessage.mqtt m2) dir ot ∧
    HandleFailedMessage cfg now2 (OriginalMessage.mqtt m2) r2 dir ot tt2
        (HandleFailedMessage cfg now1 (OriginalMessage.mqtt m1) r1 dir ot tt1 st) =
      { st with failedMessages := fun k =>
          if k = createMessageKey now1 (OriginalMessage.mqtt m1) dir ot then
            some { originalMessage := OriginalMessage.mqtt m1, failureReason := r2
                   attemptCount := 2, firstFailure := now1, lastAttempt := now2
                   direction := dir, originalTopic := ot, targetTopic := tt1 }
          else st.failedMessages k } := by
  have hkey : createMessageKey now1 (OriginalMessage.mqtt m1) dir ot =
      createMessageKey now2 (OriginalMessage.mqtt m2) dir ot := by
    simp only [createMessageKey, Timestamp.unix] at hsec ⊢
    rw [hsec]
  refine ⟨hkey, ?_⟩
  rw [handle_fresh_keep cfg now1 (OriginalMessage.mqtt m1) r1 dir ot tt1 st hen hfresh
    (by omega)]
  rw [handle_incr_keep cfg now2 (OriginalMessage.mqtt m2) r2 dir ot tt2 _
    (mkFailedRecord (OriginalMessage.mqtt m1) r1 dir ot tt1 now1 1) hen
    (by rw [← hkey]; simp) (by simp only [mkFailedRecord]; omega)]
  congr 1
  funext k
  rw [← hkey]
  by_cases hk : k = createMessageKey now1 (OriginalMessage.mqtt m1) dir ot <;>
    simp [hk, mkFailedRecord]

/-- Witness for C10: two distinct MQTT messages on `"sensor/a"` whose
timestamps both fall in Unix second 5 share the key
`"mqtt-to-kafka-sensor/a-5"`, and the second failure increments the first
record to 2 attempts. -/
theorem dlq_key_granularity_witness :
    createMessageKey ⟨50, 0⟩
        (OriginalMessage.mqtt ⟨"sensor/a", "x", 0, false, ⟨5, 100⟩⟩)
        "mqtt-to-kafka" "sensor/a" =
      createMessageKey ⟨51, 0⟩
        (OriginalMessage.mqtt ⟨"sensor/a", "y", 0, false, ⟨5, 999⟩⟩)
        "mqtt-to-kafka" "sensor/a" ∧
    HandleFailedMessage ⟨true, "", "", 5, false, false⟩ ⟨51, 0⟩
        (OriginalMessage.mqtt ⟨"sensor/a", "y", 0, false, ⟨5, 999⟩⟩)
        "e2" "mqtt-to-kafka" "sensor/a" "gom2k.sensor.a"
        (HandleFailedMessage ⟨true, "", "", 5, false, false⟩ ⟨50, 0⟩
          (OriginalMessage.mqtt ⟨"sensor/a", "x", 0, false, ⟨5, 100⟩⟩)
          "e1" "mqtt-to-kafka" "sensor/a" "gom2k.sensor.a" DLQState.initial) =
      { DLQState.initial with failedMessages := fun k => if k = (createMessageKey ⟨50, 0⟩ (OriginalMessage.mqtt ⟨"sensor/a", "x", 0, false, ⟨5, 100⟩⟩) "mqtt-to-kafka" "sensor/a") then some ⟨OriginalMessage.mqtt ⟨"sensor/a", "x", 0, false, ⟨5, 100⟩⟩, "e2", 2, ⟨50, 0⟩, ⟨51, 0⟩, "mqtt-to-kafka", "sensor/a", "gom2k.sensor.a"⟩ else DLQState.initial.failedMessages k } :=
  dlq_key_granularity ⟨true, "", "", 5, false, false⟩
    ⟨"sensor/a", "x", 0, false, ⟨5, 100⟩⟩ ⟨"sensor/a", "y", 0, false, ⟨5, 999⟩⟩
    "mqtt-to-kafka" "sensor/a" "gom2k.sensor.a" "gom2k.sensor.a" "e1" "e2"
    ⟨50, 0⟩ ⟨51, 0⟩ DLQState.initial rfl rfl (by decide) rfl
